import Mathlib

/-!
Verification of the gauth-server authenticated secret-lifecycle subsystem.

Shallow embedding of the Rust sources:
  * `src/alib/handler.rs` — the `AuthHandler` gate, the `/create`, `/delete`,
    `/verify`, `/qr`, `/qr_url` handler callbacks and the helpers
    `validate_params`, `get_secret`, `get_qr_data`.
  * `src/lib/db.rs` — the `DB` wrapper over the relational store
    (`get_host_for_api_key`, `create_secret`, `delete_secret`, `get_secret`).
  * `src/main.rs` — the startup path (`get_db_params` and the config reads of
    `main`).

External collaborators (the postgres connection and the google_authenticator
crate) are not part of `src/`; they are modelled at their boundary.  The
possibility of a connection-level store failure is embedded as an explicit
failure schedule consumed one entry per store call; the TOTP code derivation,
the random secret generator and the QR renderer are modelled from the spec
where indicated and are otherwise parameters of the environment.
-/

namespace Gauth

/-! ### JSON values and request bodies (the `json` / `bodyparser` boundary) -/

/-- A flat JSON value as the handlers observe it through the `json` crate. -/
inductive JsonVal where
  | null
  | bool (b : Bool)
  | num (n : Int)
  | str (s : String)
deriving DecidableEq, Repr

/-- `JsonValue::as_str`: `Some` only for a JSON string. -/
def JsonVal.as_str : JsonVal → Option String
  | .str s => some s
  | _ => none

/-- A parsed JSON request body: a flat field map. -/
abbrev Body := List (String × JsonVal)

/-- Indexing `body["k"]` in the `json` crate: `Null` for a missing field. -/
def Body.idx (b : Body) (k : String) : JsonVal :=
  match b.find? (fun p => p.1 == k) with
  | some p => p.2
  | none => .null

/-- A request as the handlers see it: `none` when the body fails to parse. -/
abbrev Request := Option Body

/-! ### HTTP results -/

/-- An `IronError` response: HTTP status plus caller-visible message. -/
structure HttpError where
  status : Nat
  message : String
deriving DecidableEq, Repr

/-- A successful `Response`: HTTP status plus a flat JSON body. -/
structure HttpResponse where
  status : Nat
  body : List (String × JsonVal)
deriving DecidableEq, Repr

def invalidBodyError : HttpError := ⟨400, "Invalid JSON request body"⟩

def paramsMissingError : HttpError := ⟨400, "Request parameters missing"⟩

def invalidApiKeyError : HttpError := ⟨400, "Invalid api key"⟩

/-- `validate_params` from `handler.rs`: error when any parameter is `None`. -/
def validate_params (params : List (Option String)) : Except HttpError Unit :=
  if params.any (fun p => p.isNone) then .error paramsMissingError else .ok ()

/-! ### The store (`src/lib/db.rs` over the external postgres connection) -/

/-- A store-level error as surfaced by postgres: SQLSTATE code plus message.
`23505` is the unique-violation code the `create` handler tests for. -/
structure PgError where
  code : String
  message : String
deriving DecidableEq, Repr

/-- The `secrets` table row: store-assigned id, unique `ident`, `token`. -/
structure SecretRecord where
  id : Nat
  ident : String
  token : String
deriving DecidableEq, Repr

/-- The store state: the `loc_auth` table of `(host, api_key)` bindings, the
`secrets` table, the next store-assigned id, and a schedule of
connection-level outcomes consumed one entry per store call (`some e` makes
that call fail with `e`, `none` and schedule exhaustion let it proceed). -/
structure DBState where
  loc_auth : List (String × String)
  secrets : List SecretRecord
  nextId : Nat
  failSchedule : List (Option PgError)
deriving DecidableEq, Repr

/-- Consume one entry of the connection-failure schedule. -/
def DBState.popFail (st : DBState) : Option PgError × DBState :=
  match st.failSchedule with
  | [] => (none, st)
  | f :: rest => (f, { st with failSchedule := rest })

/-- `query_one` with zero rows: the postgres "unexpected number of rows" error. -/
def noRowError : PgError := ⟨"", "query returned an unexpected number of rows"⟩

/-- The unique-violation error the store raises on a duplicate insert. -/
def uniqueViolation : PgError := ⟨"23505", "duplicate key value violates unique constraint"⟩

/-- `DB::get_host_for_api_key`: `SELECT host FROM loc_auth WHERE api_key = $1`
via `query_one` (errors when no row matches). -/
def DB.get_host_for_api_key (st : DBState) (api_key : String) :
    Except PgError String × DBState :=
  match st.popFail with
  | (some e, st') => (.error e, st')
  | (none, st') =>
    match st'.loc_auth.find? (fun p => p.2 == api_key) with
    | some p => (.ok p.1, st')
    | none => (.error noRowError, st')

/-- `DB::create_secret`: `INSERT INTO secrets (ident, token) VALUES ($1, $2)`;
the store rejects with the unique-violation error when `ident` exists. -/
def DB.create_secret (st : DBState) (ident secret : String) :
    Except PgError Unit × DBState :=
  match st.popFail with
  | (some e, st') => (.error e, st')
  | (none, st') =>
    if st'.secrets.any (fun r => r.ident == ident) then
      (.error uniqueViolation, st')
    else
      (.ok (), { st' with
        secrets := st'.secrets ++ [⟨st'.nextId, ident, secret⟩],
        nextId := st'.nextId + 1 })

/-- `DB::delete_secret`: `DELETE FROM secrets WHERE ident = $1` — affecting
zero rows is not an error. -/
def DB.delete_secret (st : DBState) (ident : String) :
    Except PgError Unit × DBState :=
  match st.popFail with
  | (some e, st') => (.error e, st')
  | (none, st') =>
    (.ok (), { st' with secrets := st'.secrets.filter (fun r => r.ident != ident) })

/-- `DB::get_secret`: `SELECT id, token FROM secrets WHERE ident = $1` via
`query_one` (errors when no row matches). -/
def DB.get_secret (st : DBState) (ident : String) :
    Except PgError (Nat × String) × DBState :=
  match st.popFail with
  | (some e, st') => (.error e, st')
  | (none, st') =>
    match st'.secrets.find? (fun r => r.ident == ident) with
    | some r => (.ok (r.id, r.token), st')
    | none => (.error noRowError, st')

/-! ### Base32 and the secret generator (TOTP Engine boundary) -/

/-- The RFC 4648 base32 alphabet. -/
def b32alphabet : List Char := "ABCDEFGHIJKLMNOPQRSTUVWXYZ234567".toList

/-- The eight bits of a byte, most significant first. -/
def byteBits (b : Nat) : List Bool :=
  [b / 128 % 2 == 1, b / 64 % 2 == 1, b / 32 % 2 == 1, b / 16 % 2 == 1,
   b / 8 % 2 == 1, b / 4 % 2 == 1, b / 2 % 2 == 1, b % 2 == 1]

/-- Value of a big-endian bit group. -/
def bitsVal (l : List Bool) : Nat :=
  l.foldl (fun a b => 2 * a + (if b then 1 else 0)) 0

/-- Split a bit list into consecutive groups of five (last group short). -/
def chunk5 : List Bool → List (List Bool)
  | [] => []
  | [a] => [[a]]
  | [a, b] => [[a, b]]
  | [a, b, c] => [[a, b, c]]
  | [a, b, c, d] => [[a, b, c, d]]
  | a :: b :: c :: d :: e :: rest => [a, b, c, d, e] :: chunk5 rest

/-- Pad a final short group with zero bits on the right (RFC 4648). -/
def padTo5 (g : List Bool) : List Bool := g ++ List.replicate (5 - g.length) false

/-- Base32-encode a byte sequence (no `=` padding). -/
def base32Encode (bytes : List Nat) : String :=
  String.mk ((chunk5 ((bytes.map byteBits).flatten)).map
    (fun g => b32alphabet.getD (bitsVal (padTo5 g)) 'A'))

/-- Modelled from the spec: `generateSecret` of the TOTP Engine (the
`create_secret` of the google_authenticator crate, which is not part of
`src/`): `byteLength` cryptographically random raw bytes, base32-encoded.
The fresh random bytes are supplied by the environment. -/
def create_secret_str (randBytes : List Nat) (len : Nat) : String :=
  base32Encode (randBytes.take len)

/-- Modelled from the spec: `verifyCode` of the TOTP Engine (the
`verify_code` of the google_authenticator crate, which is not part of
`src/`): the current 30-second step is `now / 30`, and the submitted code is
accepted exactly when it matches the code derived at some step within
± `tol` steps of the current one.  The per-step code derivation (HOTP over
the secret) is the parameter `codeAt`. -/
def verify_code (codeAt : String → Nat → String) (secret code : String)
    (tol now : Nat) : Bool :=
  (List.range (2 * tol + 1)).any (fun i => codeAt secret (now / 30 - tol + i) == code)

/-- Modelled from the spec: `qrSnapshot`'s URL form (the `qr_code_url` of the
google_authenticator crate, which is not part of `src/`): it only assembles
the otpauth-URI parameters it is given — secret, label, issuer — and passes
them through unmodified into the chart URL. -/
def qr_code_url (secret name title : String) (width height : Nat) : String :=
  "https://chart.googleapis.com/chart?cht=qr&chs=" ++ toString width ++ "x" ++
    toString height ++ "&chld=M|0&chl=otpauth://totp/" ++ name ++
    "%3Fsecret%3D" ++ secret ++ "%26issuer%3D" ++ title

/-! ### Configuration (`configparser` boundary and `src/main.rs`) -/

/-- The handler-visible configuration: the three `auth` section values the
handlers read (and unwrap) per request. -/
structure Config where
  secret_len : Nat
  default_width : Nat
  default_height : Nat
deriving DecidableEq, Repr

/-- A raw ini configuration: `(section, key, value)` entries. -/
abbrev RawConfig := List (String × String × String)

/-- `Ini::get`. -/
def RawConfig.get (c : RawConfig) (sec key : String) : Option String :=
  match c.find? (fun t => t.1 == sec && t.2.1 == key) with
  | some t => some t.2.2
  | none => none

/-- Decimal parse of a digit list (the numeric conversion `Ini::getint` /
`Ini::getuint` perform): `none` unless nonempty and all digits. -/
def parseNatList (cs : List Char) : Option Nat :=
  if cs ≠ [] ∧ cs.all (fun ch => 48 ≤ ch.toNat ∧ ch.toNat ≤ 57) then
    some (cs.foldl (fun a ch => 10 * a + (ch.toNat - 48)) 0)
  else none

/-- Signed decimal parse of a string. -/
def parseInt (s : String) : Option Int :=
  match s.toList with
  | '-' :: rest => (parseNatList rest).map (fun n => -(n : Int))
  | l => (parseNatList l).map (fun n => (n : Int))

/-- `Ini::getint` followed by the source's unwraps: `none` models the panic
on a missing or unparsable key. -/
def RawConfig.getint (c : RawConfig) (sec key : String) : Option Int :=
  (c.get sec key).bind parseInt

/-- `Ini::getuint` followed by the source's unwraps. -/
def RawConfig.getuint (c : RawConfig) (sec key : String) : Option Nat :=
  (c.get sec key).bind (fun s => parseNatList s.toList)

/-- `get_db_params` from `main.rs`: formats the six `db` section values,
panicking (`none`) when one is missing. -/
def get_db_params (c : RawConfig) : Option String := do
  let u ← c.get "db" "user"
  let pw ← c.get "db" "password"
  let dbn ← c.get "db" "dbname"
  let ssl ← c.get "db" "sslmode"
  let hst ← c.get "db" "host"
  let prt ← c.get "db" "port"
  return "user=" ++ u ++ " password=" ++ pw ++ " dbname=" ++ dbn ++
    " sslmode=" ++ ssl ++ " host=" ++ hst ++ " port=" ++ prt

/-- The startup path of `main` from `main.rs` (config reads only; the CLI
api-key branch and the network bind are outside the embedding): reads the
`db` parameters and the `main` bind address, returning the bind string on
success and `none` where the source would panic on a missing key.  No
`auth` section key is read or validated here. -/
def mainStartup (c : RawConfig) : Option String := do
  let _ ← get_db_params c
  let ip ← c.get "main" "bind_ip"
  let port ← c.getint "main" "port"
  return ip ++ ":" ++ toString port

/-- The per-request derivation of the handler configuration: the `auth`
section reads (`conf.getuint(..).unwrap().unwrap()`) done inside `create`
and `get_qr_data`; `none` models the panic on a missing key.  No bound or
positivity check is applied. -/
def handlerConfig (c : RawConfig) : Option Config := do
  let sl ← c.getuint "auth" "secret_len"
  let w ← c.getuint "auth" "default_width"
  let h ← c.getuint "auth" "default_height"
  return ⟨sl, w, h⟩

/-! ### The environment: external nondeterminism and external pure code -/

/-- The ambient environment of a request: the fresh random bytes the secret
generator draws, the HOTP per-step code derivation, the wall clock (seconds),
and the QR SVG renderer (which may fail). -/
structure Env where
  secretBytes : List Nat
  codeAt : String → Nat → String
  now : Nat
  qrRender : String → String → String → Nat → Nat → Except String String

/-- The handler callback type (`type Callback` in `handler.rs`), with the
store state threaded explicitly. -/
abbrev Callback := Request → Config → DBState → Except HttpError HttpResponse × DBState

/-! ### The authorization gate (`AuthHandler::handle`) -/

/-- `AuthHandler::handle` from `src/alib/handler.rs`: parse the body, require
`api_key` to be a string (`validate_params`), look the key up in the store,
and only on success invoke the wrapped callback. -/
def authHandle (f : Callback) (req : Request) (conf : Config) (st : DBState) :
    Except HttpError HttpResponse × DBState :=
  match req with
  | none => (.error invalidBodyError, st)
  | some body =>
    match (body.idx "api_key").as_str with
    | none => (.error paramsMissingError, st)
    | some k =>
      match DB.get_host_for_api_key st k with
      | (.error _, st1) => (.error invalidApiKeyError, st1)
      | (.ok _, st1) => f (some body) conf st1

/-! ### Handler callbacks -/

/-- The error message `create` builds from a store error: formatted from the
error generally, overridden to the fixed duplicate message when the SQLSTATE
code is `23505`. -/
def createErrMsg (e : PgError) : String :=
  if e.code == "23505" then "Database error: duplicate entry"
  else "Database error: " ++ e.message

/-- The `create` handler: generates a secret, requires `ident` to be a
string, inserts, and maps the store error through `createErrMsg` (HTTP 200
either way). -/
def create (env : Env) (req : Request) (conf : Config) (st : DBState) :
    Except HttpError HttpResponse × DBState :=
  match req with
  | none => (.error invalidBodyError, st)
  | some body =>
    let secret := create_secret_str env.secretBytes conf.secret_len
    match (body.idx "ident").as_str with
    | none => (.error paramsMissingError, st)
    | some ident =>
      match DB.create_secret st ident secret with
      | (.error e, st') =>
        (.ok ⟨200, [("status", .bool false), ("message", .str (createErrMsg e))]⟩, st')
      | (.ok _, st') =>
        (.ok ⟨200, [("status", .bool true), ("ident", .str ident),
          ("secret", .str secret)]⟩, st')

/-- The `delete` handler: requires `ident`, deletes, reports the bare store
error message on failure and `status:true` on success (HTTP 200 either way,
no existence check). -/
def delete (_env : Env) (req : Request) (_conf : Config) (st : DBState) :
    Except HttpError HttpResponse × DBState :=
  match req with
  | none => (.error invalidBodyError, st)
  | some body =>
    match (body.idx "ident").as_str with
    | none => (.error paramsMissingError, st)
    | some ident =>
      match DB.delete_secret st ident with
      | (.error e, st') =>
        (.ok ⟨200, [("status", .bool false), ("message", .str e.message)]⟩, st')
      | (.ok _, st') =>
        (.ok ⟨200, [("status", .bool true)]⟩, st')

/-- The `get_secret` helper: fetch from the store, converting any store error
into an internal 500 `IronError` (which the callers below catch). -/
def get_secret (st : DBState) (ident : String) :
    Except HttpError String × DBState :=
  match DB.get_secret st ident with
  | (.error _, st') => (.error ⟨500, "Database error"⟩, st')
  | (.ok r, st') => (.ok r.2, st')

/-- The `verify` handler: requires `ident` and `code` to be strings
(`validate_params` inlined as the option match — error when either is
missing), then fetches the secret; any fetch failure yields the
`Invalid identity` outcome, otherwise the code is verified with tolerance 0
at the current time. -/
def verify (env : Env) (req : Request) (_conf : Config) (st : DBState) :
    Except HttpError HttpResponse × DBState :=
  match req with
  | none => (.error invalidBodyError, st)
  | some body =>
    match (body.idx "ident").as_str, (body.idx "code").as_str with
    | some ident, some code =>
      match get_secret st ident with
      | (.error _, st') =>
        (.ok ⟨200, [("status", .bool false), ("message", .str "Invalid identity")]⟩, st')
      | (.ok sec, st') =>
        (.ok ⟨200, [("status", .bool true),
          ("verified", .bool (verify_code env.codeAt sec code 0 env.now))]⟩, st')
    | _, _ => (.error paramsMissingError, st)

/-- The `get_qr_data` helper: requires `ident`, `name`, `title` to be
strings, reads the configured width and height, and fetches the secret
(propagating `get_secret`'s internal 500 error). -/
def get_qr_data (req : Request) (conf : Config) (st : DBState) :
    Except HttpError (String × String × String × String × Nat × Nat) × DBState :=
  match req with
  | none => (.error invalidBodyError, st)
  | some body =>
    match (body.idx "ident").as_str, (body.idx "name").as_str,
        (body.idx "title").as_str with
    | some ident, some name, some title =>
      match get_secret st ident with
      | (.error e, st') => (.error e, st')
      | (.ok sec, st') =>
        (.ok (ident, name, title, sec, conf.default_width, conf.default_height), st')
    | _, _, _ => (.error paramsMissingError, st)

/-- The `qr` handler: any `get_qr_data` failure becomes a 200 response with
`Failed to get qr data`; a renderer failure becomes `Failed to create qr
code`; success returns the SVG string. -/
def qr (env : Env) (req : Request) (conf : Config) (st : DBState) :
    Except HttpError HttpResponse × DBState :=
  match get_qr_data req conf st with
  | (.error _, st') =>
    (.ok ⟨200, [("status", .bool false), ("message", .str "Failed to get qr data")]⟩, st')
  | (.ok (_, name, title, sec, w, h), st') =>
    match env.qrRender sec name title w h with
    | .error _ =>
      (.ok ⟨200, [("status", .bool false), ("message", .str "Failed to create qr code")]⟩, st')
    | .ok svg =>
      (.ok ⟨200, [("status", .bool true), ("qr_code", .str svg)]⟩, st')

/-- The `qr_url` handler: any `get_qr_data` failure becomes a 200 response
with `Failed to create qr url`; success returns the assembled chart URL. -/
def qr_url (env : Env) (req : Request) (conf : Config) (st : DBState) :
    Except HttpError HttpResponse × DBState :=
  match get_qr_data req conf st with
  | (.error _, st') =>
    (.ok ⟨200, [("status", .bool false), ("message", .str "Failed to create qr url")]⟩, st')
  | (.ok (_, name, title, sec, w, h), st') =>
    (.ok ⟨200, [("status", .bool true),
      ("qr_code_url", .str (qr_code_url sec name title w h))]⟩, st')

/-! ### The router (`get_router_w_routes`) -/

/-- `get_router_w_routes` from `src/alib/handler.rs`: every one of the five
POST endpoints is wrapped in an `AuthHandler` around its callback.  (The
additional GET `/` route serves a static page with no auth and no store
access; it is outside this embedding.) -/
def get_router_w_routes (env : Env) : List (String × Callback) :=
  [("/create", create env), ("/delete", delete env), ("/verify", verify env),
   ("/qr", qr env), ("/qr_url", qr_url env)]

/-- Request dispatch: route on the path, then run the `AuthHandler` around
the routed callback; `none` for an unknown path. -/
def dispatch (env : Env) (path : String) (req : Request) (conf : Config)
    (st : DBState) : Option (Except HttpError HttpResponse × DBState) :=
  match (get_router_w_routes env).find? (fun p => p.1 == path) with
  | some p => some (authHandle p.2 req conf st)
  | none => none

/-! ### Helper lemmas -/

theorem popFail_nil (st : DBState) (h : st.failSchedule = []) :
    st.popFail = (none, st) := by
  unfold DBState.popFail
  rw [h]

theorem get_host_ok (st : DBState) (k : String) (p : String × String)
    (hs : st.failSchedule = [])
    (hf : st.loc_auth.find? (fun q => q.2 == k) = some p) :
    DB.get_host_for_api_key st k = (.ok p.1, st) := by
  simp only [DB.get_host_for_api_key, popFail_nil st hs, hf]

theorem get_host_notfound (st : DBState) (k : String)
    (hs : st.failSchedule = [])
    (hf : st.loc_auth.find? (fun q => q.2 == k) = none) :
    DB.get_host_for_api_key st k = (.error noRowError, st) := by
  simp only [DB.get_host_for_api_key, popFail_nil st hs, hf]

theorem get_host_tables (st : DBState) (k : String) :
    (DB.get_host_for_api_key st k).2.loc_auth = st.loc_auth ∧
    (DB.get_host_for_api_key st k).2.secrets = st.secrets := by
  unfold DB.get_host_for_api_key DBState.popFail
  rcases h : st.failSchedule with _ | ⟨f, rest⟩
  · rcases hf : st.loc_auth.find? (fun q => q.2 == k) with _ | p <;> simp [hf]
  · cases f
    · rcases hf : st.loc_auth.find? (fun q => q.2 == k) with _ | p <;> simp [hf]
    · simp

theorem dispatch_create (env : Env) (r : Request) (c : Config) (s : DBState) :
    dispatch env "/create" r c s = some (authHandle (create env) r c s) := rfl

theorem dispatch_delete (env : Env) (r : Request) (c : Config) (s : DBState) :
    dispatch env "/delete" r c s = some (authHandle (delete env) r c s) := rfl

theorem dispatch_verify (env : Env) (r : Request) (c : Config) (s : DBState) :
    dispatch env "/verify" r c s = some (authHandle (verify env) r c s) := rfl

theorem dispatch_qr (env : Env) (r : Request) (c : Config) (s : DBState) :
    dispatch env "/qr" r c s = some (authHandle (qr env) r c s) := rfl

theorem dispatch_qr_url (env : Env) (r : Request) (c : Config) (s : DBState) :
    dispatch env "/qr_url" r c s = some (authHandle (qr_url env) r c s) := rfl

theorem createErrMsg_unique :
    createErrMsg uniqueViolation = "Database error: duplicate entry" := rfl

theorem createErrMsg_other (e : PgError) (h : e.code ≠ "23505") :
    createErrMsg e = "Database error: " ++ e.message := by
  unfold createErrMsg
  rw [if_neg]
  simpa using h

theorem byteBits_length (b : Nat) : (byteBits b).length = 8 := rfl

theorem bits_length (bytes : List Nat) :
    ((bytes.map byteBits).flatten).length = 8 * bytes.length := by
  induction bytes with
  | nil => simp
  | cons b t ih =>
    simp only [List.map_cons, List.flatten_cons, List.length_append, ih,
      byteBits_length, List.length_cons]
    omega

theorem chunk5_length (l : List Bool) : (chunk5 l).length = (l.length + 4) / 5 := by
  induction l using chunk5.induct with
  | case1 => rfl
  | case2 a => simp [chunk5]
  | case3 a b => simp [chunk5]
  | case4 a b c => simp [chunk5]
  | case5 a b c d => simp [chunk5]
  | case6 a b c d e rest ih =>
    simp only [chunk5, List.length_cons, ih]
    omega

theorem base32Encode_length (bytes : List Nat) :
    (base32Encode bytes).length = (8 * bytes.length + 4) / 5 := by
  unfold base32Encode
  rw [String.length_mk, List.length_map, chunk5_length, bits_length]

theorem b32alphabet_getD_mem (n : Nat) : b32alphabet.getD n 'A' ∈ b32alphabet := by
  rw [List.getD_eq_getElem?_getD]
  rcases hg : b32alphabet[n]? with _ | c
  · simp only [hg, Option.getD_none]
    decide
  · simp only [hg, Option.getD_some]
    rcases List.getElem?_eq_some_iff.mp hg with ⟨h, he⟩
    exact he ▸ List.getElem_mem h

theorem base32Encode_chars (bytes : List Nat) :
    ∀ c ∈ (base32Encode bytes).toList, c ∈ b32alphabet := by
  intro c hc
  have hl : (base32Encode bytes).toList =
      (chunk5 ((bytes.map byteBits).flatten)).map
        (fun g => b32alphabet.getD (bitsVal (padTo5 g)) 'A') := rfl
  rw [hl] at hc
  rcases List.mem_map.mp hc with ⟨g, _, rfl⟩
  exact b32alphabet_getD_mem _

theorem verify_code_iff (codeAt : String → Nat → String) (secret code : String)
    (tol now : Nat) (htol : tol ≤ now / 30) :
    verify_code codeAt secret code tol now = true ↔
      ∃ k, now / 30 - tol ≤ k ∧ k ≤ now / 30 + tol ∧ codeAt secret k = code := by
  unfold verify_code
  rw [List.any_eq_true]
  constructor
  · rintro ⟨i, hi, heq⟩
    rw [List.mem_range] at hi
    simp only [beq_iff_eq] at heq
    exact ⟨now / 30 - tol + i, by omega, by omega, heq⟩
  · rintro ⟨k, h1, h2, heq⟩
    refine ⟨k - (now / 30 - tol), ?_, ?_⟩
    · rw [List.mem_range]
      omega
    · have hk : now / 30 - tol + (k - (now / 30 - tol)) = k := by omega
      simp only [beq_iff_eq, hk]
      exact heq

/-! ### Concrete fixtures for witnesses and counterexamples -/

/-- A concrete environment: 20 fixed "random" bytes, a simple injective
per-step code derivation, a fixed clock, a renderer that succeeds. -/
def env0 : Env :=
  { secretBytes := [72, 101, 108, 108, 111, 32, 119, 111, 114, 108,
      100, 33, 33, 49, 50, 51, 52, 53, 54, 55]
    codeAt := fun s k => s ++ toString k
    now := 95
    qrRender := fun _ _ _ _ _ => .ok "svg-data" }

def conf0 : Config := ⟨20, 200, 200⟩

def st0 : DBState :=
  { loc_auth := [("hostA", "key1")]
    secrets := [⟨1, "web1", "SECRETABC234"⟩]
    nextId := 2
    failSchedule := [] }

/-! ### Claims -/

/-- C1: a `/create` request whose `ident` already exists is rejected by the
store's uniqueness constraint: the handler returns HTTP 200 with body
`status:false` and message `Database error: duplicate entry`, the store
state — hence the original secret record for that ident — is unchanged, and
any other store-level failure (a different SQLSTATE code, with a message
other than the literal `duplicate entry`) produces a different
caller-visible message. -/
theorem create_duplicate_rejected
    (env : Env) (conf : Config) (st : DBState) (body : Body)
    (k ident : String) (p : String × String)
    (hsched : st.failSchedule = [])
    (hkey : (body.idx "api_key").as_str = some k)
    (hfound : st.loc_auth.find? (fun q => q.2 == k) = some p)
    (hident : (body.idx "ident").as_str = some ident)
    (hdup : st.secrets.any (fun r => r.ident == ident) = true) :
    dispatch env "/create" (some body) conf st =
      some (.ok ⟨200, [("status", .bool false),
        ("message", .str "Database error: duplicate entry")]⟩, st) ∧
    (∀ e : PgError, e.code ≠ "23505" → e.message ≠ "duplicate entry" →
      createErrMsg e ≠ "Database error: duplicate entry") := by
  constructor
  · rw [dispatch_create]
    simp [authHandle, hkey, get_host_ok st k p hsched hfound, create, hident,
      DB.create_secret, popFail_nil st hsched, hdup, createErrMsg_unique]
  · intro e h1 h2 hcontra
    rw [createErrMsg_other e h1] at hcontra
    apply h2
    have h3 : "Database error: " ++ e.message =
        "Database error: " ++ "duplicate entry" := by rw [hcontra]; rfl
    have h4 := congrArg String.data h3
    rw [String.data_append, String.data_append] at h4
    exact String.ext (List.append_cancel_left h4)

/-- Witness for C1 at concrete inputs. -/
theorem create_duplicate_rejected_witness :
    dispatch env0 "/create" (some [("api_key", .str "key1"), ("ident", .str "web1")]) conf0 st0 =
      some (.ok ⟨200, [("status", .bool false),
        ("message", .str "Database error: duplicate entry")]⟩, st0) ∧
    createErrMsg ⟨"XX000", "connection refused"⟩ ≠ "Database error: duplicate entry" := by
  have h := create_duplicate_rejected env0 conf0 st0
    [("api_key", .str "key1"), ("ident", .str "web1")] "key1" "web1" ("hostA", "key1")
    rfl rfl rfl rfl rfl
  exact ⟨h.1, h.2 ⟨"XX000", "connection refused"⟩ (by decide) (by decide)⟩

/-- C2: every one of the five POST endpoints dispatches through the
`AuthHandler` gate; and whenever the gate does not succeed — the `api_key`
field is not a string, or the store lookup of the key fails — the result is
an error response computed identically for every operation callback (so no
Lifecycle Manager or TOTP Engine operation executes) with both store tables
unchanged. -/
theorem auth_gate_before_ops
    (env : Env) (conf : Config) (st : DBState) (body : Body)
    (hauth : (body.idx "api_key").as_str = none ∨
      ∃ k e st1, (body.idx "api_key").as_str = some k ∧
        DB.get_host_for_api_key st k = (.error e, st1)) :
    (∀ f g : Callback,
      authHandle f (some body) conf st = authHandle g (some body) conf st) ∧
    (∀ f : Callback, ∃ e st1, authHandle f (some body) conf st = (.error e, st1) ∧
      st1.secrets = st.secrets ∧ st1.loc_auth = st.loc_auth) ∧
    (∀ path ∈ ["/create", "/delete", "/verify", "/qr", "/qr_url"],
      ∃ f : Callback, ∀ r c s, dispatch env path r c s = some (authHandle f r c s)) := by
  refine ⟨?_, ?_, ?_⟩
  · intro f g
    rcases hauth with hk | ⟨k, e, st1, hk, hr⟩
    · simp [authHandle, hk]
    · simp [authHandle, hk, hr]
  · intro f
    rcases hauth with hk | ⟨k, e, st1, hk, hr⟩
    · exact ⟨paramsMissingError, st, by simp [authHandle, hk], rfl, rfl⟩
    · refine ⟨invalidApiKeyError, st1, by simp [authHandle, hk, hr], ?_, ?_⟩
      · have h2 := (get_host_tables st k).2
        rw [hr] at h2
        exact h2
      · have h1 := (get_host_tables st k).1
        rw [hr] at h1
        exact h1
  · intro path hpath
    simp only [List.mem_cons, List.not_mem_nil, or_false] at hpath
    rcases hpath with rfl | rfl | rfl | rfl | rfl
    · exact ⟨create env, fun r c s => dispatch_create env r c s⟩
    · exact ⟨delete env, fun r c s => dispatch_delete env r c s⟩
    · exact ⟨verify env, fun r c s => dispatch_verify env r c s⟩
    · exact ⟨qr env, fun r c s => dispatch_qr env r c s⟩
    · exact ⟨qr_url env, fun r c s => dispatch_qr_url env r c s⟩

/-- Witness for C2 at concrete inputs: an unknown key. -/
theorem auth_gate_before_ops_witness :
    ∃ e st1, authHandle (create env0)
      (some [("api_key", .str "badkey")]) conf0 st0 = (.error e, st1) ∧
      st1.secrets = st0.secrets ∧ st1.loc_auth = st0.loc_auth := by
  have h := auth_gate_before_ops env0 conf0 st0 [("api_key", .str "badkey")]
    (Or.inr ⟨"badkey", noRowError, st0, rfl, rfl⟩)
  exact h.2.1 (create env0)

/-- C3: `verify_code` accepts a submitted code exactly when it equals the
code derived at some 30-second step within ± `tol` of the current step
`now / 30`; with tolerance 0 only the current window's code is accepted; a
code derived for a window more than `tol` away (and colliding with no code
inside the window) is rejected; and the `/verify` handler invokes
`verify_code` with tolerance 0, returning the outcome as a normal boolean
in a `status:true` response. -/
theorem verify_code_tolerance
    (codeAt : String → Nat → String) (secret code : String) (tol now : Nat)
    (htol : tol ≤ now / 30) :
    (verify_code codeAt secret code tol now = true ↔
      ∃ k, now / 30 - tol ≤ k ∧ k ≤ now / 30 + tol ∧ codeAt secret k = code) ∧
    (∀ n, verify_code codeAt secret code 0 n = true ↔
      codeAt secret (n / 30) = code) ∧
    (∀ j, (j < now / 30 - tol ∨ now / 30 + tol < j) →
      (∀ k, now / 30 - tol ≤ k → k ≤ now / 30 + tol →
        codeAt secret k ≠ codeAt secret j) →
      verify_code codeAt secret (codeAt secret j) tol now = false) ∧
    (∀ (env : Env) (conf : Config) (st : DBState) (body : Body)
        (ident c : String) (i : Nat) (sec : String) (st1 : DBState),
      (body.idx "ident").as_str = some ident →
      (body.idx "code").as_str = some c →
      DB.get_secret st ident = (.ok (i, sec), st1) →
      verify env (some body) conf st =
        (.ok ⟨200, [("status", .bool true),
          ("verified", .bool (verify_code env.codeAt sec c 0 env.now))]⟩, st1)) := by
  refine ⟨verify_code_iff codeAt secret code tol now htol, ?_, ?_, ?_⟩
  · intro n
    rw [verify_code_iff codeAt secret code 0 n (Nat.zero_le _)]
    constructor
    · rintro ⟨k, h1, h2, heq⟩
      have hk : k = n / 30 := by omega
      rwa [hk] at heq
    · intro h
      exact ⟨n / 30, by omega, by omega, h⟩
  · intro j _ hcover
    cases hb : verify_code codeAt secret (codeAt secret j) tol now
    · rfl
    · exfalso
      rcases (verify_code_iff codeAt secret (codeAt secret j) tol now htol).mp hb
        with ⟨k, h1, h2, heq⟩
      exact hcover k h1 h2 heq
  · intro env conf st body ident c i sec st1 hident hcode hsec
    simp [verify, hident, hcode, get_secret, hsec]

/-- Witness for C3 at concrete inputs: with tolerance 1 and clock 95
(current step 3), the code derived at step 3 is accepted. -/
theorem verify_code_tolerance_witness :
    verify_code (fun s k => s ++ toString k) "S" "S3" 1 95 = true :=
  ((verify_code_tolerance (fun s k => s ++ toString k) "S" "S3" 1 95
    (by decide)).1).mpr ⟨3, by decide, by decide, rfl⟩

/-- C4 counterexample: the two authorization-failure cases are
distinguishable by their caller-visible messages — a request with no
`api_key` yields `Request parameters missing` while an unrecognized key
yields `Invalid api key` — contradicting the claim that the messages do not
reveal which case occurred. -/
theorem auth_failure_messages_differ :
    authHandle (create env0) (some [("ident", .str "x")]) conf0 st0 =
      (.error paramsMissingError, st0) ∧
    authHandle (create env0) (some [("api_key", .str "badkey")]) conf0 st0 =
      (.error invalidApiKeyError, st0) ∧
    paramsMissingError.message ≠ invalidApiKeyError.message :=
  ⟨rfl, rfl, by decide⟩

/-- C4 (amended): a request with no usable `api_key` and a request whose key
matches no stored binding both yield HTTP 400 (never 500), with the fixed
messages `Request parameters missing` and `Invalid api key` respectively —
constants that do not depend on the supplied key or the store contents,
though they do distinguish the two cases from each other. -/
theorem auth_failure_modes
    (f : Callback) (conf : Config) (st : DBState) (body1 body2 : Body)
    (k : String) (e : PgError) (st1 : DBState)
    (h1 : (body1.idx "api_key").as_str = none)
    (h2 : (body2.idx "api_key").as_str = some k)
    (h3 : DB.get_host_for_api_key st k = (.error e, st1)) :
    authHandle f (some body1) conf st = (.error paramsMissingError, st) ∧
    authHandle f (some body2) conf st = (.error invalidApiKeyError, st1) ∧
    paramsMissingError.status = 400 ∧ invalidApiKeyError.status = 400 :=
  ⟨by simp [authHandle, h1], by simp [authHandle, h2, h3], rfl, rfl⟩

/-- Witness for the amended C4 at concrete inputs. -/
theorem auth_failure_modes_witness :
    authHandle (create env0) (some [("ident", .str "x")]) conf0 st0 =
      (.error paramsMissingError, st0) ∧
    authHandle (create env0) (some [("api_key", .str "badkey")]) conf0 st0 =
      (.error invalidApiKeyError, st0) ∧
    paramsMissingError.status = 400 ∧ invalidApiKeyError.status = 400 :=
  auth_failure_modes (create env0) conf0 st0 [("ident", .str "x")]
    [("api_key", .str "badkey")] "badkey" noRowError st0 rfl rfl rfl

/-- C5 counterexample: a `/qr` request naming an unknown ident yields the
message `Failed to get qr data`, not the auth-shaped `Invalid identity` the
claim asserts for all three endpoints. -/
theorem qr_unknown_ident_counterexample :
    dispatch env0 "/qr" (some [("api_key", .str "key1"), ("ident", .str "nope"),
      ("name", .str "N"), ("title", .str "T")]) conf0 st0 =
      some (.ok ⟨200, [("status", .bool false),
        ("message", .str "Failed to get qr data")]⟩, st0) ∧
    "Failed to get qr data" ≠ "Invalid identity" :=
  ⟨rfl, by decide⟩

/-- C5 (amended): against an unknown ident, only `/verify` produces the
auth-shaped `Invalid identity` outcome; `/qr` produces `Failed to get qr
data` and `/qr_url` produces `Failed to create qr url` — all as HTTP 200
with `status:false`. -/
theorem unknown_ident_outcomes
    (env : Env) (conf : Config) (st : DBState) (body : Body)
    (k ident : String) (p : String × String)
    (hsched : st.failSchedule = [])
    (hkey : (body.idx "api_key").as_str = some k)
    (hfound : st.loc_auth.find? (fun q => q.2 == k) = some p)
    (hident : (body.idx "ident").as_str = some ident)
    (hcode : (body.idx "code").as_str = some "000000")
    (hname : (body.idx "name").as_str = some "N")
    (htitle : (body.idx "title").as_str = some "T")
    (hnotfound : st.secrets.find? (fun r => r.ident == ident) = none) :
    dispatch env "/verify" (some body) conf st =
      some (.ok ⟨200, [("status", .bool false),
        ("message", .str "Invalid identity")]⟩, st) ∧
    dispatch env "/qr" (some body) conf st =
      some (.ok ⟨200, [("status", .bool false),
        ("message", .str "Failed to get qr data")]⟩, st) ∧
    dispatch env "/qr_url" (some body) conf st =
      some (.ok ⟨200, [("status", .bool false),
        ("message", .str "Failed to create qr url")]⟩, st) := by
  refine ⟨?_, ?_, ?_⟩
  · rw [dispatch_verify]
    simp [authHandle, hkey, get_host_ok st k p hsched hfound, verify, hident,
      hcode, get_secret, DB.get_secret, popFail_nil st hsched, hnotfound]
  · rw [dispatch_qr]
    simp [authHandle, hkey, get_host_ok st k p hsched hfound, qr, get_qr_data,
      hident, hname, htitle, get_secret, DB.get_secret, popFail_nil st hsched,
      hnotfound]
  · rw [dispatch_qr_url]
    simp [authHandle, hkey, get_host_ok st k p hsched hfound, qr_url,
      get_qr_data, hident, hname, htitle, get_secret, DB.get_secret,
      popFail_nil st hsched, hnotfound]

/-- Witness for the amended C5 at concrete inputs. -/
theorem unknown_ident_outcomes_witness :
    dispatch env0 "/verify" (some [("api_key", .str "key1"), ("ident", .str "nope"),
      ("code", .str "000000"), ("name", .str "N"), ("title", .str "T")]) conf0 st0 =
      some (.ok ⟨200, [("status", .bool false),
        ("message", .str "Invalid identity")]⟩, st0) :=
  (unknown_ident_outcomes env0 conf0 st0
    [("api_key", .str "key1"), ("ident", .str "nope"), ("code", .str "000000"),
     ("name", .str "N"), ("title", .str "T")]
    "key1" "nope" ("hostA", "key1") rfl rfl rfl rfl rfl rfl rfl rfl).1

/-- C6 counterexample: a connection-level store failure during `/delete`
surfaces as HTTP 200 with `status:false`, not as the HTTP 500 the claim
asserts for every non-uniqueness store failure. -/
theorem store_failure_counterexample :
    dispatch env0 "/delete" (some [("api_key", .str "key1"), ("ident", .str "web1")])
      conf0 (DBState.mk [("hostA", "key1")] [⟨1, "web1", "SECRETABC234"⟩] 2
        [none, some ⟨"XX000", "disk failure"⟩]) =
      some (.ok ⟨200, [("status", .bool false), ("message", .str "disk failure")]⟩,
        DBState.mk [("hostA", "key1")] [⟨1, "web1", "SECRETABC234"⟩] 2 []) ∧
    (200 : Nat) ≠ 500 :=
  ⟨rfl, by decide⟩

/-- C6 (amended): non-uniqueness store failures never surface as HTTP 500:
a failure during the API-key authorization lookup surfaces as the HTTP 400
`Invalid api key` error; a failure during `/delete` surfaces as HTTP 200
with `status:false` and the store's message; a failure during `/create`
(SQLSTATE other than 23505) surfaces as HTTP 200 with `status:false` and
`Database error: ` plus the store's message.  No retry occurs: each request
consumes its store calls exactly once. -/
theorem store_failure_surface
    (env : Env) (conf : Config) (body : Body)
    (la : List (String × String)) (se : List SecretRecord) (ni : Nat)
    (k ident : String) (p : String × String) (e : PgError)
    (hkey : (body.idx "api_key").as_str = some k)
    (hfound : la.find? (fun q => q.2 == k) = some p)
    (hident : (body.idx "ident").as_str = some ident)
    (hcode : e.code ≠ "23505") :
    (∀ f : Callback, authHandle f (some body) conf (DBState.mk la se ni [some e]) =
      (.error invalidApiKeyError, DBState.mk la se ni [])) ∧
    dispatch env "/delete" (some body) conf (DBState.mk la se ni [none, some e]) =
      some (.ok ⟨200, [("status", .bool false), ("message", .str e.message)]⟩,
        DBState.mk la se ni []) ∧
    dispatch env "/create" (some body) conf (DBState.mk la se ni [none, some e]) =
      some (.ok ⟨200, [("status", .bool false),
        ("message", .str ("Database error: " ++ e.message))]⟩,
        DBState.mk la se ni []) ∧
    invalidApiKeyError.status = 400 := by
  refine ⟨?_, ?_, ?_, rfl⟩
  · intro f
    simp [authHandle, hkey, DB.get_host_for_api_key, DBState.popFail]
  · rw [dispatch_delete]
    simp [authHandle, hkey, DB.get_host_for_api_key, DBState.popFail, hfound,
      delete, hident, DB.delete_secret]
  · rw [dispatch_create]
    simp [authHandle, hkey, DB.get_host_for_api_key, DBState.popFail, hfound,
      create, hident, DB.create_secret, createErrMsg_other e hcode]

/-- Witness for the amended C6 at concrete inputs. -/
theorem store_failure_surface_witness :
    dispatch env0 "/delete" (some [("api_key", .str "key1"), ("ident", .str "web1")])
      conf0 (DBState.mk [("hostA", "key1")] [] 2 [none, some ⟨"XX000", "io error"⟩]) =
      some (.ok ⟨200, [("status", .bool false), ("message", .str "io error")]⟩,
        DBState.mk [("hostA", "key1")] [] 2 []) :=
  (store_failure_surface env0 conf0
    [("api_key", .str "key1"), ("ident", .str "web1")]
    [("hostA", "key1")] [] 2 "key1" "web1" ("hostA", "key1") ⟨"XX000", "io error"⟩
    rfl rfl rfl (by decide)).2.1

/-- C7: a `/delete` request for an ident with no stored secret returns
`status:true` — the store delete affects zero rows, no existence check is
performed — and the store state (hence every other record) is unchanged. -/
theorem delete_nonexistent_idempotent
    (env : Env) (conf : Config) (st : DBState) (body : Body)
    (k ident : String) (p : String × String)
    (hsched : st.failSchedule = [])
    (hkey : (body.idx "api_key").as_str = some k)
    (hfound : st.loc_auth.find? (fun q => q.2 == k) = some p)
    (hident : (body.idx "ident").as_str = some ident)
    (habsent : ∀ r ∈ st.secrets, r.ident ≠ ident) :
    dispatch env "/delete" (some body) conf st =
      some (.ok ⟨200, [("status", .bool true)]⟩, st) := by
  have hf : st.secrets.filter (fun r => r.ident != ident) = st.secrets := by
    rw [List.filter_eq_self]
    intro a ha
    simpa using habsent a ha
  rw [dispatch_delete]
  simp [authHandle, hkey, get_host_ok st k p hsched hfound, delete, hident,
    DB.delete_secret, popFail_nil st hsched, hf]

/-- Witness for C7 at concrete inputs. -/
theorem delete_nonexistent_idempotent_witness :
    dispatch env0 "/delete" (some [("api_key", .str "key1"), ("ident", .str "nothere")])
      conf0 st0 = some (.ok ⟨200, [("status", .bool true)]⟩, st0) :=
  delete_nonexistent_idempotent env0 conf0 st0
    [("api_key", .str "key1"), ("ident", .str "nothere")]
    "key1" "nothere" ("hostA", "key1") rfl rfl rfl rfl (by decide)

/-- The JSON field names of a handler result body (empty for an error). -/
def respKeys (r : Except HttpError HttpResponse) : List String :=
  match r with
  | .ok resp => resp.body.map Prod.fst
  | .error _ => []

/-- Whether `pat` occurs as a contiguous subsequence of `l`. -/
def containsSeq (pat l : List Char) : Bool :=
  (List.range (l.length + 1)).any (fun i => ((l.drop i).take pat.length) == pat)

/-- C8 counterexample: the raw secret is also returned to the client by
`/qr_url` — the returned chart URL embeds the stored secret verbatim in its
otpauth parameters — so `/create` is not the only place the raw secret is
ever returned. -/
theorem qr_url_returns_secret_counterexample :
    dispatch env0 "/qr_url" (some [("api_key", .str "key1"), ("ident", .str "web1"),
      ("name", .str "N"), ("title", .str "T")]) conf0 st0 =
      some (.ok ⟨200, [("status", .bool true),
        ("qr_code_url", .str (qr_code_url "SECRETABC234" "N" "T" 200 200))]⟩, st0) ∧
    containsSeq ("SECRETABC234".toList)
      ((qr_code_url "SECRETABC234" "N" "T" 200 200).toList) = true :=
  ⟨rfl, by decide⟩

/-- C8 (amended): a successful `/create` with `secret_len = 20` returns
`status:true`, the ident, and the newly generated base32 secret of length
32 characters drawn from the base32 alphabet; `/delete` and `/verify` never
carry a `secret` field in any response; but the secret is additionally
conveyed by the QR endpoints (inside the rendered artifact / otpauth URL),
so `/create` is the only endpoint returning it as a JSON field, not the
only place it reaches a client. -/
theorem create_returns_base32_secret
    (env : Env) (conf : Config) (st : DBState) (body : Body)
    (k ident : String) (p : String × String)
    (hsched : st.failSchedule = [])
    (hkey : (body.idx "api_key").as_str = some k)
    (hfound : st.loc_auth.find? (fun q => q.2 == k) = some p)
    (hident : (body.idx "ident").as_str = some ident)
    (hnew : st.secrets.any (fun r => r.ident == ident) = false)
    (hlen : env.secretBytes.length = 20)
    (hsl : conf.secret_len = 20) :
    dispatch env "/create" (some body) conf st =
      some (.ok ⟨200, [("status", .bool true), ("ident", .str ident),
        ("secret", .str (base32Encode env.secretBytes))]⟩,
        { st with
          secrets := st.secrets ++ [⟨st.nextId, ident, base32Encode env.secretBytes⟩]
          nextId := st.nextId + 1 }) ∧
    (base32Encode env.secretBytes).length = 32 ∧
    (∀ c ∈ (base32Encode env.secretBytes).toList, c ∈ b32alphabet) ∧
    (∀ (env2 : Env) (r : Request) (c2 : Config) (s2 : DBState),
      "secret" ∉ respKeys (delete env2 r c2 s2).1 ∧
      "secret" ∉ respKeys (verify env2 r c2 s2).1) := by
  have htake : env.secretBytes.take 20 = env.secretBytes := by
    rw [← hlen, List.take_length]
  have hstr : create_secret_str env.secretBytes conf.secret_len =
      base32Encode env.secretBytes := by
    rw [create_secret_str, hsl, htake]
  refine ⟨?_, ?_, base32Encode_chars env.secretBytes, ?_⟩
  · rw [dispatch_create]
    simp [authHandle, hkey, get_host_ok st k p hsched hfound, create, hident,
      DB.create_secret, popFail_nil st hsched, hnew, hstr]
  · rw [base32Encode_length, hlen]
  · intro env2 r c2 s2
    constructor
    · unfold delete
      repeat' split
      all_goals simp only [respKeys, List.map_cons, List.map_nil, List.mem_cons,
        List.not_mem_nil, or_false]
      all_goals decide
    · unfold verify
      repeat' split
      all_goals simp only [respKeys, List.map_cons, List.map_nil, List.mem_cons,
        List.not_mem_nil, or_false]
      all_goals decide

/-- Witness for the amended C8 at concrete inputs. -/
theorem create_returns_base32_secret_witness :
    (base32Encode env0.secretBytes).length = 32 :=
  (create_returns_base32_secret env0 conf0 st0
    [("api_key", .str "key1"), ("ident", .str "fresh")]
    "key1" "fresh" ("hostA", "key1") rfl rfl rfl rfl (by decide) rfl rfl).2.1

/-- A concrete configuration file whose `auth` values are all zero and whose
`db` and `main` sections are complete. -/
def rawConf0 : RawConfig :=
  [("db", "user", "u"), ("db", "password", "p"), ("db", "dbname", "d"),
   ("db", "sslmode", "prefer"), ("db", "host", "h"), ("db", "port", "5432"),
   ("main", "bind_ip", "0.0.0.0"), ("main", "port", "8080"),
   ("auth", "secret_len", "0"), ("auth", "default_width", "0"),
   ("auth", "default_height", "0")]

/-- C9 counterexample: startup completes on a configuration whose
`secret_len`, `default_width` and `default_height` are all `0` — no `> 0`
validation happens at startup (or anywhere): the per-request config read
also succeeds, and a `/create` request then runs with `secret_len = 0`,
returning a successful response with an empty secret. -/
theorem startup_no_validation_counterexample :
    rawConf0.getuint "auth" "secret_len" = some 0 ∧
    rawConf0.getuint "auth" "default_width" = some 0 ∧
    rawConf0.getuint "auth" "default_height" = some 0 ∧
    mainStartup rawConf0 = some "0.0.0.0:8080" ∧
    handlerConfig rawConf0 = some ⟨0, 0, 0⟩ ∧
    (create env0 (some [("ident", .str "fresh")]) ⟨0, 0, 0⟩
      (DBState.mk [] [] 0 [])).1 =
      .ok ⟨200, [("status", .bool true), ("ident", .str "fresh"),
        ("secret", .str "")]⟩ := by
  refine ⟨?_, ?_, ?_, ?_, ?_, ?_⟩ <;> rfl

/-- C9 (amended): startup reads and validates only the `db` and `main`
configuration keys — it succeeds whatever the `auth` values are, so no
`> 0` validation of `secret_len`, `default_width`, `default_height` happens
at startup; those values are read per request from the config alone, and a
request body cannot override them: the `create` outcome depends on the body
only through its `ident` field. -/
theorem startup_reads_no_auth_keys
    (c : RawConfig) (dbp ip : String) (mport : Int)
    (h1 : get_db_params c = some dbp)
    (h2 : c.get "main" "bind_ip" = some ip)
    (h3 : c.getint "main" "port" = some mport) :
    mainStartup c = some (ip ++ ":" ++ toString mport) ∧
    (∀ (env : Env) (b1 b2 : Body) (conf : Config) (st : DBState),
      (b1.idx "ident").as_str = (b2.idx "ident").as_str →
      create env (some b1) conf st = create env (some b2) conf st) := by
  constructor
  · simp [mainStartup, h1, h2, h3]
  · intro env b1 b2 conf st h
    simp only [create]
    rw [h]

/-- Witness for the amended C9 at concrete inputs. -/
theorem startup_reads_no_auth_keys_witness :
    mainStartup rawConf0 = some ("0.0.0.0" ++ ":" ++ toString (8080 : Int)) ∧
    (∀ (env : Env) (b1 b2 : Body) (conf : Config) (st : DBState),
      (b1.idx "ident").as_str = (b2.idx "ident").as_str →
      create env (some b1) conf st = create env (some b2) conf st) :=
  startup_reads_no_auth_keys rawConf0
    "user=u password=p dbname=d sslmode=prefer host=h port=5432"
    "0.0.0.0" 8080 rfl rfl rfl

/-- C10: a `/verify` request whose `code` field is a JSON number (as the
handler's own documented request example shows) is rejected with the HTTP
400 `Request parameters missing` error before any secret lookup or code
verification — the same rejection results whatever the `secrets` table and
whatever the clock and code derivation; verification proceeds (to a
`status:true` response carrying the boolean outcome) only when `code` is a
JSON string. -/
theorem verify_rejects_numeric_code
    (env : Env) (conf : Config) (st : DBState) (body : Body)
    (k ident : String) (p : String × String) (n : Int)
    (hsched : st.failSchedule = [])
    (hkey : (body.idx "api_key").as_str = some k)
    (hfound : st.loc_auth.find? (fun q => q.2 == k) = some p)
    (hident : (body.idx "ident").as_str = some ident)
    (hnum : body.idx "code" = .num n) :
    (∀ (env2 : Env) (st2 : DBState), st2.failSchedule = [] →
      st2.loc_auth.find? (fun q => q.2 == k) = some p →
      dispatch env2 "/verify" (some body) conf st2 =
        some (.error paramsMissingError, st2)) ∧
    (∀ (body2 : Body) (code : String) (i : Nat) (sec : String) (st1 : DBState),
      (body2.idx "api_key").as_str = some k →
      (body2.idx "ident").as_str = some ident →
      (body2.idx "code").as_str = some code →
      DB.get_secret st ident = (.ok (i, sec), st1) →
      dispatch env "/verify" (some body2) conf st =
        some (.ok ⟨200, [("status", .bool true),
          ("verified", .bool (verify_code env.codeAt sec code 0 env.now))]⟩, st1)) := by
  have hcode : (body.idx "code").as_str = none := by rw [hnum]; rfl
  constructor
  · intro env2 st2 hs2 hf2
    rw [dispatch_verify]
    simp [authHandle, hkey, get_host_ok st2 k p hs2 hf2, verify, hident, hcode]
  · intro body2 code i sec st1 hkey2 hident2 hcode2 hsec
    rw [dispatch_verify]
    simp [authHandle, hkey2, get_host_ok st k p hsched hfound, verify, hident2,
      hcode2, get_secret, hsec]

/-- Witness for C10 at concrete inputs. -/
theorem verify_rejects_numeric_code_witness :
    dispatch env0 "/verify" (some [("api_key", .str "key1"),
      ("ident", .str "web1"), ("code", .num 123456)]) conf0 st0 =
      some (.error paramsMissingError, st0) :=
  (verify_rejects_numeric_code env0 conf0 st0
    [("api_key", .str "key1"), ("ident", .str "web1"), ("code", .num 123456)]
    "key1" "web1" ("hostA", "key1") 123456 rfl rfl rfl rfl rfl).1 env0 st0 rfl rfl

end Gauth
